import Mathlib

/-!
Shallow embedding of the psst logging library.

Dispatcher (`Logger` in the repository's dispatcher module), sinks
(`targets.ts`: `LogManager`, `FileTarget`) and the level flags
(`contracts.ts`: `enum LogLevel`).  Sinks are identified by `Nat` handles
(JavaScript object identity); a sink's behaviour is a function telling
whether its `log` method raises when invoked.  A dispatcher call returns
the list of observable events (sink invocations and `console.error`
writes) together with `some t` when sink `t`'s exception propagates to
the caller (the TypeScript code has no try/catch around sink calls).
-/

/-- `enum LogLevel` from contracts.ts: Debug = 1, Info = 2, Warn = 4, Error = 8. -/
inductive LogLevel where
  | Debug
  | Info
  | Warn
  | Error
deriving DecidableEq, Repr

/-- The numeric value of each flag, as declared in contracts.ts. -/
def LogLevel.val : LogLevel → Nat
  | .Debug => 1
  | .Info  => 2
  | .Warn  => 4
  | .Error => 8

/-- A JavaScript value passed as an extra `args` entry: a string or a number. -/
inductive JsValue where
  | str (s : String)
  | num (n : Int)
deriving DecidableEq, Repr

/-- JavaScript stringification used by `Array.prototype.join`. -/
def JsValue.toStr : JsValue → String
  | .str s => s
  | .num n => toString n

/-- `args.join("")`: concatenation of the stringified values. -/
def joinArgs (args : List JsValue) : String :=
  String.join (args.map JsValue.toStr)

/-- Observable events of a dispatcher call: a sink's `log` being invoked,
or a diagnostic written with `console.error`. -/
inductive Event where
  | sinkCall (target : Nat) (level : LogLevel) (text : String) (args : List JsValue)
  | consoleError (msg : String)
deriving DecidableEq, Repr

/-- Dispatcher state: `private level` and `private logTargets` of class `Logger`. -/
structure Logger where
  level : Nat
  logTargets : List Nat
deriving DecidableEq, Repr

/-- `constructor(level = Debug | Error | Info | Warn)`: a TypeScript default
parameter is used exactly when the argument is omitted (`none`). -/
def Logger.construct (level : Option Nat) : Logger :=
  { level := level.getD
      (LogLevel.Debug.val ||| LogLevel.Error.val ||| LogLevel.Info.val ||| LogLevel.Warn.val),
    logTargets := [] }

/-- `setLogLevel(level)`. -/
def Logger.setLogLevel (s : Logger) (level : Nat) : Logger :=
  { s with level := level }

/-- `add(target)`: `indexOf(target) == -1` (here: index equals the length,
since the Lean index-of returns the length when absent) guards a push. -/
def Logger.add (s : Logger) (target : Nat) : Logger :=
  let i := s.logTargets.indexOf target
  if i = s.logTargets.length then { s with logTargets := s.logTargets ++ [target] } else s

/-- `remove(target)`: `indexOf(target) >= 0` (here: index below the length)
guards a `splice(i, 1)`. -/
def Logger.remove (s : Logger) (target : Nat) : Logger :=
  let i := s.logTargets.indexOf target
  if i < s.logTargets.length then { s with logTargets := s.logTargets.eraseIdx i } else s

/-- The loop of `writeTarget`: `for (const target of this.logTargets)
target.log(...)`. A raising sink is invoked (it raises during its own
write), the loop stops there and the exception propagates (`some t`);
there is no try/catch in the source. -/
def writeTargetLoop (raises : Nat → Bool) (level : LogLevel) (text : String)
    (args : List JsValue) : List Nat → List Event × Option Nat
  | [] => ([], none)
  | t :: rest =>
    if raises t then ([Event.sinkCall t level text args], some t)
    else
      let r := writeTargetLoop raises level text args rest
      (Event.sinkCall t level text args :: r.1, r.2)

/-- `writeTarget(level, text, ...args)`: emits `console.error("No logger
specified")` when the registration list is empty, then loops over the sinks. -/
def Logger.writeTarget (raises : Nat → Bool) (s : Logger) (level : LogLevel)
    (text : String) (args : List JsValue) : List Event × Option Nat :=
  let diag : List Event :=
    if s.logTargets.length = 0 then [Event.consoleError "No logger specified"] else []
  let r := writeTargetLoop raises level text args s.logTargets
  (diag ++ r.1, r.2)

/-- `log(text, ...args)`: guarded by `this.level & LogLevel.Debug`
(JavaScript truthiness: nonzero). -/
def Logger.log (raises : Nat → Bool) (s : Logger) (text : String)
    (args : List JsValue) : List Event × Option Nat :=
  if s.level &&& LogLevel.Debug.val ≠ 0 then s.writeTarget raises LogLevel.Debug text args
  else ([], none)

/-- `info(text, ...args)`: guarded by `this.level & LogLevel.Info`. -/
def Logger.info (raises : Nat → Bool) (s : Logger) (text : String)
    (args : List JsValue) : List Event × Option Nat :=
  if s.level &&& LogLevel.Info.val ≠ 0 then s.writeTarget raises LogLevel.Info text args
  else ([], none)

/-- `warn(text, ...args)`: guarded by `this.level & LogLevel.Warn`. -/
def Logger.warn (raises : Nat → Bool) (s : Logger) (text : String)
    (args : List JsValue) : List Event × Option Nat :=
  if s.level &&& LogLevel.Warn.val ≠ 0 then s.writeTarget raises LogLevel.Warn text args
  else ([], none)

/-- `error(text, ...args)`: guarded by `this.level & LogLevel.Error`. -/
def Logger.error (raises : Nat → Bool) (s : Logger) (text : String)
    (args : List JsValue) : List Event × Option Nat :=
  if s.level &&& LogLevel.Error.val ≠ 0 then s.writeTarget raises LogLevel.Error text args
  else ([], none)

/-- The dispatcher method corresponding to a level: `log` for Debug,
`info` for Info, `warn` for Warn, `error` for Error. -/
def methodFor (l : LogLevel) : (Nat → Bool) → Logger → String → List JsValue →
    List Event × Option Nat :=
  match l with
  | .Debug => Logger.log
  | .Info  => Logger.info
  | .Warn  => Logger.warn
  | .Error => Logger.error

/-- Number of deliveries to sink `target` in an event list. -/
def countDeliveries (evs : List Event) (target : Nat) : Nat :=
  (evs.filter (fun e =>
    match e with
    | Event.sinkCall u _ _ _ => u = target
    | Event.consoleError _ => false)).length

/-- The superseded dispatcher variant in src/logger.ts stores
`isNullOrUndefined(level) ? level : Debug | Error | Info | Warn`:
the stored mask, with `none` standing for `undefined`. -/
def LoggerTs.ctorLevel (level : Option Nat) : Option Nat :=
  if level.isNone then level
  else some (LogLevel.Debug.val ||| LogLevel.Error.val ||| LogLevel.Info.val ||| LogLevel.Warn.val)

/-- Gating effect of a stored level: `undefined & flag` is `NaN`, which is
falsy for every flag, so an `undefined` stored level behaves as mask 0. -/
def effectiveMask (storedLevel : Option Nat) : Nat :=
  storedLevel.getD 0

/-- A local datetime as moment.js exposes it: calendar fields, time of
day, and the local UTC offset in minutes. -/
structure Moment where
  year : Nat
  month : Nat
  day : Nat
  hour : Nat
  minute : Nat
  sec : Nat
  ms : Nat
  offMinutes : Int
deriving DecidableEq, Repr

/-- Month offsets of Sakamoto's day-of-week formula. -/
def sakamotoTable : List Nat := [0, 3, 2, 5, 0, 3, 5, 1, 4, 6, 2, 4]

/-- moment's `.day()`: the day of the week, 0 = Sunday … 6 = Saturday
(Sakamoto's congruence on the Gregorian calendar). -/
def Moment.dayOfWeek (m : Moment) : Nat :=
  let y := if m.month < 3 then m.year - 1 else m.year
  (y + y / 4 - y / 100 + y / 400 + sakamotoTable.getD (m.month - 1) 0 + m.day) % 7

/-- Two-digit zero-padded decimal. -/
def pad2 (n : Nat) : String :=
  if n < 10 then "0" ++ toString n else toString n

/-- Three-digit zero-padded decimal. -/
def pad3 (n : Nat) : String :=
  if n < 10 then "00" ++ toString n
  else if n < 100 then "0" ++ toString n
  else toString n

/-- Four-digit zero-padded decimal. -/
def pad4 (n : Nat) : String :=
  if n < 10 then "000" ++ toString n
  else if n < 100 then "00" ++ toString n
  else if n < 1000 then "0" ++ toString n
  else toString n

/-- moment's format `YYYY-MM-DD` (the `dateFormat` of `FileTarget`). -/
def Moment.formatDate (m : Moment) : String :=
  pad4 m.year ++ "-" ++ pad2 m.month ++ "-" ++ pad2 m.day

/-- The hour on a 12-hour clock (format token `hh`): 0 ↦ 12, 13 ↦ 1. -/
def hh12 (hour : Nat) : Nat :=
  (hour + 11) % 12 + 1

/-- moment's format token `Z`: the UTC offset as `+HH:mm` / `-HH:mm`. -/
def formatOffset (offMinutes : Int) : String :=
  let sign := if offMinutes < 0 then "-" else "+"
  let a := offMinutes.natAbs
  sign ++ pad2 (a / 60) ++ ":" ++ pad2 (a % 60)

/-- `now.format("YYYY-MM-DD hh:mm:ss.SSS Z")` used by `FileTarget.log`
(`hh` is the 12-hour clock in moment). -/
def Moment.formatTimestamp (m : Moment) : String :=
  m.formatDate ++ " " ++ pad2 (hh12 m.hour) ++ ":" ++ pad2 m.minute ++ ":" ++
    pad2 m.sec ++ "." ++ pad3 m.ms ++ " " ++ formatOffset m.offMinutes

/-- Days since the civil epoch 0000-03-01 (Hinnant's days-from-civil
algorithm restricted to non-negative years, all in `Nat`). -/
def daysFromCivil (y m d : Nat) : Nat :=
  let yy := if m ≤ 2 then y - 1 else y
  let era := yy / 400
  let yoe := yy % 400
  let mp := if m > 2 then m - 3 else m + 9
  let doy := (153 * mp + 2) / 5 + d - 1
  let doe := yoe * 365 + yoe / 4 - yoe / 100 + doy
  era * 146097 + doe

/-- moment's `.valueOf()` timeline position in milliseconds (local
timeline; every comparison in the code is between same-offset moments). -/
def Moment.valueOf (m : Moment) : Nat :=
  daysFromCivil m.year m.month m.day * 86400000 +
    m.hour * 3600000 + m.minute * 60000 + m.sec * 1000 + m.ms

/-- `a.isBefore(b)` on two valid moments: timeline order. -/
def Moment.isBefore (a b : Moment) : Bool :=
  a.valueOf < b.valueOf

/-- Gregorian leap year. -/
def isLeapYear (y : Nat) : Bool :=
  (y % 4 = 0 && y % 100 ≠ 0) || y % 400 = 0

/-- Length of a month. -/
def daysInMonth (y m : Nat) : Nat :=
  if m = 2 then (if isLeapYear y then 29 else 28)
  else if m = 4 ∨ m = 6 ∨ m = 9 ∨ m = 11 then 30
  else 31

/-- `moment(fileDateString)`: ISO-8601 calendar-date parse of a
`YYYY-MM-DD` string; `none` models an invalid moment (and an invalid
moment answers `false` to every `isBefore` query, see `cleanupOldLogFile`). -/
def parseYMD (s : String) : Option Moment :=
  match s.toList with
  | [y1, y2, y3, y4, c1, m1, m2, c2, d1, d2] =>
    if y1.isDigit ∧ y2.isDigit ∧ y3.isDigit ∧ y4.isDigit ∧ c1 = '-' ∧
        m1.isDigit ∧ m2.isDigit ∧ c2 = '-' ∧ d1.isDigit ∧ d2.isDigit then
      let y := (y1.toNat - 48) * 1000 + (y2.toNat - 48) * 100 + (y3.toNat - 48) * 10 + (y4.toNat - 48)
      let mo := (m1.toNat - 48) * 10 + (m2.toNat - 48)
      let d := (d1.toNat - 48) * 10 + (d2.toNat - 48)
      if 1 ≤ mo ∧ mo ≤ 12 ∧ 1 ≤ d ∧ d ≤ daysInMonth y mo then
        some ⟨y, mo, d, 0, 0, 0, 0, 0⟩
      else none
    else none
  | _ => none

/-- JavaScript `file.endsWith(suffix)`, computed on the character list. -/
def strEndsWith (s suffix : String) : Bool :=
  suffix.toList.isSuffixOf s.toList

/-- JavaScript `file.substr(0, n)`, computed on the character list. -/
def strTake (s : String) (n : Nat) : String :=
  String.mk (s.toList.take n)

/-- State of class `FileTarget` in targets.ts. -/
structure FileTarget where
  logPath : String
  newLine : String
  initDate : Moment
  maxLogAgeInDays : Nat
  fileName : String
deriving DecidableEq, Repr

/-- `private readonly dateFormat = "YYYY-MM-DD"` (its length, 10, is the
`substr` length used by the cleanup sweep). -/
def dateFormat : String := "YYYY-MM-DD"

/-- `updateFileName(now?)`: when `now` is null/undefined it falls back to
`initDate`; the file name is recomputed when `now.day()` (the day of the
week) differs from `initDate.day()`, or when no name exists yet; the name
is `` `${logPath}\\${date}.log` `` with `date = now.format("YYYY-MM-DD")`. -/
def FileTarget.updateFileName (ft : FileTarget) (nowOpt : Option Moment) : FileTarget :=
  let now := nowOpt.getD ft.initDate
  if now.dayOfWeek ≠ ft.initDate.dayOfWeek ∨ ft.fileName.length = 0 then
    { ft with initDate := now, fileName := ft.logPath ++ "\\" ++ now.formatDate ++ ".log" }
  else ft

/-- `constructor(logPath, maxLogAgeDays)` at current time `now`:
`newLine` from the platform, `initDate = moment()`, then
`updateFileName()` computes the initial file name (the asynchronous
retention sweep is modelled separately by `cleanupOldFiles`). -/
def FileTarget.construct (logPath : String) (maxLogAgeDays : Nat) (isWin32 : Bool)
    (now : Moment) : FileTarget :=
  let ft : FileTarget :=
    { logPath := logPath,
      newLine := if isWin32 then "\r\n" else "\n",
      initDate := now,
      maxLogAgeInDays := maxLogAgeDays,
      fileName := "" }
  ft.updateFileName none

/-- Result of one `FileTarget.log` call: the updated sink state, the file
appended to, and the record data written. -/
structure FileWrite where
  ft : FileTarget
  fileName : String
  data : String
deriving DecidableEq, Repr

/-- `FileTarget.log(level, text, ...args)` at current time `now`:
rotate via `updateFileName(now)`, then append
`` `${time}\t${kind}\t${text}\t${argsJoined}${newLine}` `` (the last tab
section only when args were supplied) to `fileName`.  `kind` is
`level.toString()`: on a TypeScript numeric enum this is the decimal
numeral of the member's value. -/
def FileTarget.log (ft : FileTarget) (now : Moment) (level : LogLevel)
    (text : String) (args : List JsValue) : FileWrite :=
  let ft := ft.updateFileName (some now)
  let time := now.formatTimestamp
  let kind := toString level.val
  let data :=
    if args.length > 0 then
      time ++ "\t" ++ kind ++ "\t" ++ text ++ "\t" ++ joinArgs args ++ ft.newLine
    else
      time ++ "\t" ++ kind ++ "\t" ++ text ++ ft.newLine
  ⟨ft, ft.fileName, data⟩

/-- `cleanupOldLogFile(file, threshold)` decides deletion of one directory
entry: only names ending in `.log` are considered; the first
`dateFormat.length` characters are parsed with `moment(...)`; an invalid
parse answers `false` to `isBefore`, so the entry is kept.  `threshold`
is a timeline value in milliseconds. -/
def FileTarget.cleanupOldLogFile (ft : FileTarget) (file : String) (threshold : Nat) : Bool :=
  if strEndsWith file ".log" then
    match parseYMD (strTake file dateFormat.length) with
    | some fileDate => fileDate.valueOf < threshold
    | none => false
  else false

/-- `cleanupOldFiles()` over a directory listing: threshold is
`moment().subtract(maxLogAgeInDays, "days")`; returns the deleted
entries (each listed entry is examined, none aborts the sweep). -/
def FileTarget.cleanupOldFiles (ft : FileTarget) (now : Moment)
    (listOfFiles : List String) : List String :=
  let threshold := now.valueOf - ft.maxLogAgeInDays * 86400000
  listOfFiles.filter (fun file => ft.cleanupOldLogFile file threshold)

/-- Amended record level field: the decimal numeral of the level's
enum value, as `level.toString()` produces on a numeric enum. -/
def levelNumeral : LogLevel → String
  | .Debug => "1"
  | .Info  => "2"
  | .Warn  => "4"
  | .Error => "8"

/-- `LogManager` static state: the path-to-file-target map (insertion
order), the singleton logger, and a counter standing for `new FileTarget`
allocation (each construction yields a fresh handle). -/
structure LogManager where
  mapOfFileTargets : List (String × Nat)
  logger : Logger
  nextTargetId : Nat
deriving DecidableEq, Repr

/-- `LogManager.addFileTarget(logPath, maxLogAgeDays)`: returns early when
the map already holds a target for `logPath`; otherwise creates a fresh
`FileTarget`, records it in the map and registers it with the logger. -/
def LogManager.addFileTarget (m : LogManager) (logPath : String)
    (maxLogAgeDays : Nat) : LogManager :=
  match m.mapOfFileTargets.lookup logPath with
  | some _ => m
  | none =>
    let fileTarget := m.nextTargetId
    { mapOfFileTargets := m.mapOfFileTargets ++ [(logPath, fileTarget)],
      logger := m.logger.add fileTarget,
      nextTargetId := m.nextTargetId + 1 }

/-! ### Helper lemmas -/

theorem methodFor_eq (L : LogLevel) (raises : Nat → Bool) (s : Logger)
    (text : String) (args : List JsValue) :
    methodFor L raises s text args =
      if s.level &&& L.val ≠ 0 then s.writeTarget raises L text args else ([], none) := by
  cases L <;> rfl

theorem writeTargetLoop_noThrow (level : LogLevel) (text : String) (args : List JsValue)
    (ts : List Nat) :
    writeTargetLoop (fun _ => false) level text args ts =
      (ts.map (fun t => Event.sinkCall t level text args), none) := by
  induction ts with
  | nil => rfl
  | cons t rest ih => simp [writeTargetLoop, ih]

theorem writeTargetLoop_raises (raises : Nat → Bool) (level : LogLevel) (text : String)
    (args : List JsValue) (pre post : List Nat) (bad : Nat)
    (hbad : raises bad = true) (hpre : ∀ t ∈ pre, raises t = false) :
    writeTargetLoop raises level text args (pre ++ bad :: post) =
      (pre.map (fun t => Event.sinkCall t level text args) ++
        [Event.sinkCall bad level text args], some bad) := by
  induction pre with
  | nil => simp [writeTargetLoop, hbad]
  | cons t rest ih =>
    have ht : raises t = false := hpre t (by simp)
    have ih' := ih (fun u hu => hpre u (by simp [hu]))
    simp [writeTargetLoop, ht, ih']

theorem Logger.add_eq (s : Logger) (t : Nat) :
    s.add t = if t ∈ s.logTargets then s
      else { s with logTargets := s.logTargets ++ [t] } := by
  unfold Logger.add
  by_cases h : t ∈ s.logTargets
  · have hlt : s.logTargets.indexOf t < s.logTargets.length := List.indexOf_lt_length.mpr h
    simp [h, Nat.ne_of_lt hlt]
  · simp [h, List.indexOf_eq_length.mpr h]

theorem Logger.remove_eq (s : Logger) (t : Nat) :
    s.remove t = { s with logTargets := s.logTargets.erase t } := by
  unfold Logger.remove
  by_cases h : t ∈ s.logTargets
  · have hlt : s.logTargets.indexOf t < s.logTargets.length := List.indexOf_lt_length.mpr h
    simp [hlt, List.eraseIdx_indexOf_eq_erase]
  · have hlen : s.logTargets.indexOf t = s.logTargets.length := List.indexOf_eq_length.mpr h
    simp [hlen, List.erase_of_not_mem h]

theorem Logger.add_level (s : Logger) (t : Nat) : (s.add t).level = s.level := by
  rw [Logger.add_eq]; split <;> rfl

theorem Logger.remove_level (s : Logger) (t : Nat) : (s.remove t).level = s.level := by
  rw [Logger.remove_eq]

theorem countDeliveries_append (a b : List Event) (t : Nat) :
    countDeliveries (a ++ b) t = countDeliveries a t + countDeliveries b t := by
  simp [countDeliveries, List.filter_append]

theorem countDeliveries_map (l : List Nat) (L : LogLevel) (text : String)
    (args : List JsValue) (t : Nat) :
    countDeliveries (l.map (fun u => Event.sinkCall u L text args)) t = l.count t := by
  induction l with
  | nil => rfl
  | cons a l ih =>
    by_cases h : a = t <;>
      simp [countDeliveries, List.count_cons, h, ← ih, List.filter]

theorem countDeliveries_methodFor_noThrow (L : LogLevel) (s : Logger) (text : String)
    (args : List JsValue) (t : Nat) :
    countDeliveries (methodFor L (fun _ => false) s text args).1 t =
      if s.level &&& L.val = 0 then 0 else s.logTargets.count t := by
  rw [methodFor_eq]
  by_cases h : s.level &&& L.val = 0
  · simp [h, countDeliveries]
  · simp only [h, ne_eq, not_false_eq_true, if_true, if_false, Logger.writeTarget,
      writeTargetLoop_noThrow]
    rw [countDeliveries_append, countDeliveries_map]
    split <;> simp [countDeliveries]

/-! ### Claim theorems -/

/-- Claim C1: for every level mask, every level L in Debug/Info/Warn/Error,
and every dispatcher state, the method corresponding to L (`log` for Debug,
`info`, `warn`, `error`) invokes each registered sink's `log` exactly once,
in registration order, exactly when L's flag is set in the mask; when the
flag is not set the call returns with no side effect (no events) and no
exception. -/
theorem C1_level_gating (m : Nat) (L : LogLevel) (targets : List Nat)
    (text : String) (args : List JsValue) :
    methodFor L (fun _ => false) ⟨m, targets⟩ text args =
      if m &&& L.val = 0 then ([], none)
      else ((if targets = [] then [Event.consoleError "No logger specified"] else []) ++
              targets.map (fun t => Event.sinkCall t L text args), none) := by
  rw [methodFor_eq]
  by_cases h : m &&& L.val = 0
  · simp [h]
  · simp [h, Logger.writeTarget, writeTargetLoop_noThrow, List.length_eq_zero]

/-- Claim C2 (counterexample): with mask 15 and registered sinks `[1, 2]`
where sink 1 raises during its write, an `error` call lets sink 1's
exception propagate to the caller (`some 1`) and sink 2 never receives a
call — contradicting the claim that delivery continues and nothing
propagates. -/
theorem C2_counterexample :
    (Logger.error (fun t => t == 1) ⟨15, [1, 2]⟩ "boom" []).2 = some 1 ∧
      Event.sinkCall 2 LogLevel.Error "boom" [] ∉
        (Logger.error (fun t => t == 1) ⟨15, [1, 2]⟩ "boom" []).1 ∧
      (∀ msg, Event.consoleError msg ∉
        (Logger.error (fun t => t == 1) ⟨15, [1, 2]⟩ "boom" []).1) := by
  constructor
  · decide
  · constructor
    · decide
    · have hev : (Logger.error (fun t => t == 1) ⟨15, [1, 2]⟩ "boom" []).1 =
          [Event.sinkCall 1 LogLevel.Error "boom" []] := by decide
      intro msg hmsg
      rw [hev] at hmsg
      simp at hmsg

/-- Claim C2 (amended): when a registered sink raises during its write,
the sinks registered before it are still delivered to, the raising sink
is invoked, but delivery stops there: the exception propagates to the
caller of `log`/`info`/`warn`/`error` and the sinks registered after the
raising one receive nothing; no fallback-channel report of the sink's
error is made. -/
theorem C2_sink_exception_propagates (raises : Nat → Bool) (m : Nat)
    (pre post : List Nat) (bad : Nat) (L : LogLevel) (text : String)
    (args : List JsValue) (hbad : raises bad = true)
    (hpre : ∀ t ∈ pre, raises t = false) (hm : m &&& L.val ≠ 0) :
    methodFor L raises ⟨m, pre ++ bad :: post⟩ text args =
      (pre.map (fun t => Event.sinkCall t L text args) ++
        [Event.sinkCall bad L text args], some bad) := by
  rw [methodFor_eq]
  simp [hm, Logger.writeTarget, writeTargetLoop_raises raises L text args pre post bad hbad hpre]

/-- Claim C2 witness: mask 15, sinks `[1, 2, 3]`, sink 2 raises: an
`error` call delivers to sink 1, invokes sink 2, skips sink 3, and
propagates sink 2's exception. -/
theorem C2_sink_exception_propagates_witness :
    Logger.error (fun t => t == 2) ⟨15, [1, 2, 3]⟩ "boom" [] =
      ([Event.sinkCall 1 LogLevel.Error "boom" [],
        Event.sinkCall 2 LogLevel.Error "boom" []], some 2) := by
  have h := C2_sink_exception_propagates (fun t => t == 2) 15 [1] [3] 2 LogLevel.Error
    "boom" [] (by decide) (by decide) (by decide)
  simpa using h

/-- Claim C6 (code bug): the dispatcher of the dispatcher module behaves
as claimed — omitting the level yields the all-four mask 15 and a supplied
mask is kept — but the superseded variant in src/logger.ts has the
ternary inverted: a supplied mask (here Error = 8) is replaced by the
all-four mask 15, and an omitted level is stored as `undefined`, whose
gating effect is mask 0 (all logging disabled). -/
theorem C6_ctor_mask :
    (Logger.construct none).level = 15 ∧
    (∀ m : Nat, (Logger.construct (some m)).level = m) ∧
    LoggerTs.ctorLevel (some LogLevel.Error.val) = some 15 ∧
    LoggerTs.ctorLevel none = none ∧
    effectiveMask (LoggerTs.ctorLevel none) = 0 :=
  ⟨rfl, fun _ => rfl, rfl, rfl, rfl⟩

/-- Claim C7: `add` is idempotent — adding the same sink twice (identity
comparison on handles) leaves the registration list equal to adding it
once — and, from a duplicate-free state, each enabled call of the
corresponding method delivers exactly one invocation to that sink. -/
theorem C7_add_idempotent (s : Logger) (t : Nat) :
    (s.add t).add t = s.add t ∧
    (s.logTargets.Nodup → ∀ (L : LogLevel) (text : String) (args : List JsValue),
      s.level &&& L.val ≠ 0 →
      countDeliveries (methodFor L (fun _ => false) (s.add t) text args).1 t = 1) := by
  constructor
  · rw [Logger.add_eq s t]
    by_cases h : t ∈ s.logTargets
    · rw [if_pos h, Logger.add_eq s t, if_pos h]
    · rw [if_neg h, Logger.add_eq, if_pos (by simp)]
  · intro hnd L text args hm
    rw [countDeliveries_methodFor_noThrow, Logger.add_level, if_neg hm]
    rw [Logger.add_eq]
    by_cases h : t ∈ s.logTargets
    · rw [if_pos h]
      exact List.count_eq_one_of_mem hnd h
    · rw [if_neg h]
      simp [List.count_append, List.count_eq_zero_of_not_mem h]

/-- Claim C7 witness: concrete instance with the sink already present. -/
theorem C7_add_idempotent_witness :
    ((⟨15, [7]⟩ : Logger).add 7).add 7 = (⟨15, [7]⟩ : Logger).add 7 ∧
    countDeliveries
      (methodFor LogLevel.Warn (fun _ => false) ((⟨15, [7]⟩ : Logger).add 7) "m" []).1 7 = 1 :=
  ⟨(C7_add_idempotent ⟨15, [7]⟩ 7).1,
   (C7_add_idempotent ⟨15, [7]⟩ 7).2 (by decide) LogLevel.Warn "m" [] (by decide)⟩

/-- Claim C8: `remove` on a never-added sink is a no-op that changes
nothing of the dispatcher state; and after `add` then `remove` of a sink
(from a duplicate-free state) every subsequent call of any of the four
methods delivers zero invocations to that sink. -/
theorem C8_remove_after_add (s : Logger) (t : Nat) :
    (t ∉ s.logTargets → s.remove t = s) ∧
    (s.logTargets.Nodup → ∀ (L : LogLevel) (text : String) (args : List JsValue),
      countDeliveries (methodFor L (fun _ => false) ((s.add t).remove t) text args).1 t = 0) := by
  constructor
  · intro h
    rw [Logger.remove_eq, List.erase_of_not_mem h]
  · intro hnd L text args
    have hnd' : (s.add t).logTargets.Nodup := by
      rw [Logger.add_eq]
      by_cases h : t ∈ s.logTargets
      · rwa [if_pos h]
      · rw [if_neg h]
        simp [List.nodup_append, hnd, h]
    have hnotmem : t ∉ ((s.add t).remove t).logTargets := by
      rw [Logger.remove_eq]
      intro hmem
      rcases (List.Nodup.mem_erase_iff hnd').mp hmem with ⟨hne, _⟩
      exact hne rfl
    rw [countDeliveries_methodFor_noThrow]
    split
    · rfl
    · exact List.count_eq_zero.mpr hnotmem

/-- Claim C8 witness: concrete instances of both clauses. -/
theorem C8_remove_after_add_witness :
    (⟨15, [4]⟩ : Logger).remove 9 = ⟨15, [4]⟩ ∧
    countDeliveries
      (methodFor LogLevel.Error (fun _ => false)
        (((⟨15, [4]⟩ : Logger).add 9).remove 9) "m" []).1 9 = 0 :=
  ⟨(C8_remove_after_add ⟨15, [4]⟩ 9).1 (by decide),
   (C8_remove_after_add ⟨15, [4]⟩ 9).2 (by decide) LogLevel.Error "m" []⟩

/-- Claim C9: when the registration set is empty and the call's level is
enabled, the dispatcher reports the diagnostic "No logger specified" via
`console.error` instead of silently dropping the message, and raises
nothing to the caller. -/
theorem C9_empty_targets_diagnostic (m : Nat) (L : LogLevel) (text : String)
    (args : List JsValue) (raises : Nat → Bool) (hm : m &&& L.val ≠ 0) :
    methodFor L raises ⟨m, []⟩ text args =
      ([Event.consoleError "No logger specified"], none) := by
  rw [methodFor_eq]
  simp [hm, Logger.writeTarget, writeTargetLoop]

/-- Claim C9 witness: an enabled `info` call on an empty registration set. -/
theorem C9_empty_targets_diagnostic_witness :
    methodFor LogLevel.Info (fun _ => false) ⟨15, []⟩ "hello" [] =
      ([Event.consoleError "No logger specified"], none) :=
  C9_empty_targets_diagnostic 15 LogLevel.Info "hello" [] (fun _ => false) (by decide)

/-- Claim C10: `LogManager.addFileTarget` is idempotent per path — when a
file target for `logPath` is already registered the call returns early,
creating no `FileTarget` (allocation counter unchanged) and leaving the
path map and the logger's registration set untouched. -/
theorem C10_addFileTarget_idempotent (m : LogManager) (logPath : String)
    (maxLogAgeDays : Nat) (h : (m.mapOfFileTargets.lookup logPath).isSome = true) :
    m.addFileTarget logPath maxLogAgeDays = m := by
  obtain ⟨v, hv⟩ := Option.isSome_iff_exists.mp h
  simp [LogManager.addFileTarget, hv]

/-- Claim C10 witness: a second `addFileTarget` for an already-registered
path is the identity on the manager state. -/
theorem C10_addFileTarget_idempotent_witness :
    LogManager.addFileTarget ⟨[("logs", 0)], ⟨15, [0]⟩, 1⟩ "logs" 10 =
      ⟨[("logs", 0)], ⟨15, [0]⟩, 1⟩ :=
  C10_addFileTarget_idempotent ⟨[("logs", 0)], ⟨15, [0]⟩, 1⟩ "logs" 10 (by decide)

theorem FileTarget.updateFileName_newLine (ft : FileTarget) (nowOpt : Option Moment) :
    (ft.updateFileName nowOpt).newLine = ft.newLine := by
  simp only [FileTarget.updateFileName]
  split <;> rfl

/-- Claim C3 (code bug): rotation is decided with moment's `.day()`, the
day of the week, not the calendar date.  A sink constructed on Monday
2021-03-01 writes its first record into `logs\2021-03-01.log`; a second
write on Monday 2021-03-08 — a different calendar date, the same weekday —
is appended to the same `logs\2021-03-01.log` instead of a file named
after its own date, although `2021-03-08` formats to a different name. -/
theorem C3_rotation_by_weekday :
    ((FileTarget.construct "logs" 10 false ⟨2021, 3, 1, 23, 0, 0, 0, 0⟩).log
        ⟨2021, 3, 1, 23, 30, 0, 0, 0⟩ LogLevel.Info "a" []).fileName = "logs\\2021-03-01.log" ∧
    (((FileTarget.construct "logs" 10 false ⟨2021, 3, 1, 23, 0, 0, 0, 0⟩).log
        ⟨2021, 3, 1, 23, 30, 0, 0, 0⟩ LogLevel.Info "a" []).ft.log
        ⟨2021, 3, 8, 0, 30, 0, 0, 0⟩ LogLevel.Info "b" []).fileName = "logs\\2021-03-01.log" ∧
    Moment.formatDate ⟨2021, 3, 8, 0, 30, 0, 0, 0⟩ = "2021-03-08" ∧
    Moment.dayOfWeek ⟨2021, 3, 1, 23, 0, 0, 0, 0⟩ = Moment.dayOfWeek ⟨2021, 3, 8, 0, 30, 0, 0, 0⟩ := by
  decide

/-- Claim C4 (counterexample): a record for level Error, message "boom",
values ["x", 1] is `<timestamp>\t8\tboom\tx1\n` — the level field is the
numeric enum value rendered by `level.toString()`, not the name "Error"
the claim requires. -/
theorem C4_level_name_counterexample :
    ((FileTarget.construct "logs" 10 false ⟨2021, 3, 1, 9, 0, 0, 0, 0⟩).log
        ⟨2021, 3, 1, 9, 0, 0, 0, 0⟩ LogLevel.Error "boom"
        [JsValue.str "x", JsValue.num 1]).data =
      "2021-03-01 09:00:00.000 +00:00\t8\tboom\tx1\n" ∧
    ¬ ((FileTarget.construct "logs" 10 false ⟨2021, 3, 1, 9, 0, 0, 0, 0⟩).log
        ⟨2021, 3, 1, 9, 0, 0, 0, 0⟩ LogLevel.Error "boom"
        [JsValue.str "x", JsValue.num 1]).data =
      "2021-03-01 09:00:00.000 +00:00\tError\tboom\tx1\n" := by
  decide

/-- Claim C4 (amended): every record written by the file sink is the
formatted timestamp, a tab, the level's numeric enum value in decimal
("8" for Error), a tab, the message and, when extra values were supplied,
a tab followed by their concatenation, ending in the sink's line
terminator. -/
theorem C4_record_format (ft : FileTarget) (now : Moment) (level : LogLevel)
    (text : String) (args : List JsValue) :
    (ft.log now level text args).data =
      now.formatTimestamp ++ "\t" ++ levelNumeral level ++ "\t" ++ text ++
        (if args.isEmpty then "" else "\t" ++ joinArgs args) ++ ft.newLine := by
  have hkind : toString level.val = levelNumeral level := by
    cases level <;> rfl
  cases args with
  | nil =>
    simp [FileTarget.log, FileTarget.updateFileName_newLine, hkind, String.append_assoc]
  | cons a rest =>
    simp [FileTarget.log, FileTarget.updateFileName_newLine, hkind, String.append_assoc]

theorem cleanupOldLogFile_of_parse_none (ft : FileTarget) (file : String)
    (threshold : Nat) (hp : parseYMD (strTake file dateFormat.length) = none) :
    ft.cleanupOldLogFile file threshold = false := by
  unfold FileTarget.cleanupOldLogFile
  split
  · rw [hp]
  · rfl

/-- Claim C5: a directory entry is deleted by the retention sweep iff its
name ends in ".log" and its leading YYYY-MM-DD portion parses to a date
strictly earlier than now minus `maxLogAgeInDays` days (on the
millisecond timeline, the parsed date standing at its midnight); an
entry whose leading portion does not parse is never deleted and does not
abort the sweep — the entries around it are processed as if it were
absent. -/
theorem C5_retention_rule (ft : FileTarget) (now : Moment) (file : String) :
    (ft.cleanupOldLogFile file (now.valueOf - ft.maxLogAgeInDays * 86400000) = true ↔
      strEndsWith file ".log" = true ∧
        ∃ d, parseYMD (strTake file dateFormat.length) = some d ∧
          d.valueOf < now.valueOf - ft.maxLogAgeInDays * 86400000) ∧
    (∀ pre post : List String, parseYMD (strTake file dateFormat.length) = none →
      ft.cleanupOldFiles now (pre ++ file :: post) =
        ft.cleanupOldFiles now pre ++ ft.cleanupOldFiles now post) := by
  constructor
  · unfold FileTarget.cleanupOldLogFile
    by_cases he : strEndsWith file ".log"
    · cases hp : parseYMD (strTake file dateFormat.length) with
      | some d => simp [he, hp]
      | none => simp [he, hp]
    · simp [he]
  · intro pre post hp
    have hfalse := cleanupOldLogFile_of_parse_none ft file
      (now.valueOf - ft.maxLogAgeInDays * 86400000) hp
    simp [FileTarget.cleanupOldFiles, List.filter_append, List.filter_cons, hfalse]

/-- Claim C5 witness: with `now` = 2021-03-20 12:00 and a 10-day window,
the sweep deletes `2021-03-09.log` (dated today − 11) and keeps
`2021-03-19.log` (dated today − 1); a name whose leading characters do
not parse as a date is skipped without stopping the sweep. -/
theorem C5_retention_rule_witness :
    ((FileTarget.construct "logs" 10 false ⟨2021, 3, 20, 12, 0, 0, 0, 0⟩).cleanupOldFiles
        ⟨2021, 3, 20, 12, 0, 0, 0, 0⟩ ["2021-03-19.log", "2021-03-09.log"] =
      ["2021-03-09.log"]) ∧
    ((FileTarget.construct "logs" 10 false ⟨2021, 3, 20, 12, 0, 0, 0, 0⟩).cleanupOldFiles
        ⟨2021, 3, 20, 12, 0, 0, 0, 0⟩
        (["2021-03-19.log"] ++ "badname.log" :: ["2021-03-09.log"]) =
      (FileTarget.construct "logs" 10 false ⟨2021, 3, 20, 12, 0, 0, 0, 0⟩).cleanupOldFiles
        ⟨2021, 3, 20, 12, 0, 0, 0, 0⟩ ["2021-03-19.log"] ++
      (FileTarget.construct "logs" 10 false ⟨2021, 3, 20, 12, 0, 0, 0, 0⟩).cleanupOldFiles
        ⟨2021, 3, 20, 12, 0, 0, 0, 0⟩ ["2021-03-09.log"]) :=
  ⟨by decide,
   (C5_retention_rule (FileTarget.construct "logs" 10 false ⟨2021, 3, 20, 12, 0, 0, 0, 0⟩)
      ⟨2021, 3, 20, 12, 0, 0, 0, 0⟩ "badname.log").2
     ["2021-03-19.log"] ["2021-03-09.log"] (by decide)⟩
